import Mathlib

/-
Verification development for the astrobackend repository: a shallow
embedding of the credential gate (JWT issue/verify, signup/login handlers,
auth middleware) and of the appointment lifecycle routes
(create / update-status / cancel), together with theorems settling the
frozen claims about them.

Sources embedded:
  * src/server.js            (JWT_SECRET, POST /api/auth/signup, POST /api/auth/login)
  * src/unnamed/part_000     (routes/appointments.js and middleware/auth.js)

Modelling conventions:
  * The document store is a `List` of records; Mongo's `findOne` /
    `findOneAndUpdate` / `findOneAndDelete` act on the first record
    matching the filter, and `save` appends one record (single-document
    atomicity).
  * JS strings that may be absent are modelled as `String` where the
    empty string stands for both `undefined` and `""` (both are falsy,
    and the handlers only ever test them for falsiness).
  * bcrypt is modelled by an abstract hash parameter `bhash`:
    `bcrypt.compare p stored` holds iff `bhash p = stored`.
  * The HMAC signature of a JWT is modelled symbolically as the pair
    (secret, signed payload): a signature verifies under a secret iff it
    was produced with that very secret over that very payload.
  * Timestamps are integer milliseconds.
-/

set_option autoImplicit false

namespace AstroBackend

/-- Milliseconds in a day; used by the date-validity gate model. -/
def msPerDay : Int := 86400000

/-- Token lifetime: jwt.sign is called with expiresIn 24h. -/
def tokenLifetimeMs : Int := 86400000

/-- Process configuration visible to the code: the optional JWT_SECRET
environment variable (dotenv). `some ""` models an empty env value,
which is falsy in JS. -/
structure Config where
  envJwtSecret : Option String
deriving DecidableEq

/-- Hardcoded fallback secret from src/server.js line 132. -/
def fallbackSecret : String := "astrology_jwt_secret_key_2025"

/-- JWT_SECRET as computed in src/server.js line 132:
process.env.JWT_SECRET or the hardcoded fallback (JS truthiness: an
empty env value also selects the fallback). Used for signing at signup
and login. -/
def JWT_SECRET (cfg : Config) : String :=
  match cfg.envJwtSecret with
  | some s => if s = "" then fallbackSecret else s
  | none => fallbackSecret

/-- The secret the auth middleware (src/unnamed/part_000 line 163) hands
to jwt.verify: the raw process.env.JWT_SECRET with NO fallback. `none`
means a falsy value reaches jwt.verify, which then throws its
secret-must-be-provided error. -/
def verifySecretOfEnv (cfg : Config) : Option String :=
  match cfg.envJwtSecret with
  | some s => if s = "" then none else some s
  | none => none

/-- Payload signed into a token: jwt.sign receives userId and username,
and expiresIn adds the absolute expiry. -/
structure TokenPayload where
  userId : String
  username : String
  exp : Int
deriving DecidableEq

/-- A signed token. The signature is modelled symbolically as the pair
of the signing secret and the signed payload. -/
structure Token where
  payload : TokenPayload
  sig : String × TokenPayload
deriving DecidableEq

/-- jwt.sign with payload userId/username, a secret, and expiresIn 24h,
at issue time `now`. -/
def jwtSign (secret : String) (userId username : String) (now : Int) : Token :=
  let p : TokenPayload := ⟨userId, username, now + tokenLifetimeMs⟩
  ⟨p, (secret, p)⟩

/-- The distinct errors jwt.verify can throw in this code path. `noSecret`
is the secret-or-public-key-must-be-provided error raised when a falsy
secret is passed; it does not depend on the token at all. -/
inductive JwtError where
  | noSecret
  | malformed
  | badSignature
  | expired
deriving DecidableEq

/-- Result of jwt.verify. -/
inductive VerifyResult where
  | ok (userId username : String)
  | err (e : JwtError)
deriving DecidableEq

/-- jwt.verify on an already-decoded token: requires a secret, checks the
signature against the payload, then checks expiry against the clock. -/
def jwtVerifyTok (secret? : Option String) (now : Int) (t : Token) : VerifyResult :=
  match secret? with
  | none => .err .noSecret
  | some s =>
    if t.sig = (s, t.payload) then
      if t.payload.exp ≤ now then .err .expired
      else .ok t.payload.userId t.payload.username
    else .err .badSignature

/-- jwt.verify on the compact token string: decoding the compact
serialization is abstracted by the `decode` parameter (`none` models a
malformed token string). -/
def jwtVerifyStr (secret? : Option String) (now : Int)
    (decode : String → Option Token) (s : String) : VerifyResult :=
  match decode s with
  | none => .err .malformed
  | some t => jwtVerifyTok secret? now t

/-- Stored user record (models/User.js, reconstructed from its use in
src/server.js: username, email, hashed password, zodiacSign, and the
generated _id). -/
structure User where
  id : String
  username : String
  email : String
  password : String
  zodiacSign : String
deriving DecidableEq

/-- The user view returned by signup and login responses. -/
structure UserView where
  id : String
  username : String
  email : String
  zodiacSign : String
deriving DecidableEq

/-- Shape of the JSON responses of the two auth routes: status code,
message, optional token, optional user view. -/
structure AuthResponse where
  status : Nat
  message : String
  token : Option Token
  user : Option UserView
deriving DecidableEq

/-- Body of a signup request. Absent fields are modelled as the empty
string (both are falsy). -/
structure SignupReq where
  username : String
  email : String
  password : String
  zodiacSign : String
deriving DecidableEq

/-- POST /api/auth/signup (src/server.js lines 135-195): presence gate,
duplicate check via findOne on email-or-username, then create the user
with the bcrypt-hashed password and issue a token signed with
JWT_SECRET. `newId` is the identifier the store generates for the new
record and `now` the issue clock. -/
def signup (cfg : Config) (bhash : String → String) (now : Int) (newId : String)
    (db : List User) (req : SignupReq) : AuthResponse × List User :=
  if req.username == "" || req.email == "" || req.password == "" || req.zodiacSign == "" then
    (⟨400, "All fields are required", none, none⟩, db)
  else if db.any (fun u => u.email == req.email || u.username == req.username) then
    (⟨400, "User already exists", none, none⟩, db)
  else
    let u : User := ⟨newId, req.username, req.email, bhash req.password, req.zodiacSign⟩
    let t := jwtSign (JWT_SECRET cfg) u.id u.username now
    (⟨201, "User created successfully", some t, some ⟨u.id, u.username, u.email, u.zodiacSign⟩⟩,
      db ++ [u])

/-- POST /api/auth/login (src/server.js lines 197-245): presence gate,
findOne by username, bcrypt.compare against the stored hash, then issue
a token signed with JWT_SECRET. Both failure paths return the same 401
invalid-credentials response. -/
def login (cfg : Config) (bhash : String → String) (now : Int)
    (db : List User) (username password : String) : AuthResponse :=
  if username == "" || password == "" then
    ⟨400, "Username and password are required", none, none⟩
  else
    match db.find? (fun u => u.username == username) with
    | none => ⟨401, "Invalid credentials", none, none⟩
    | some u =>
      if bhash password == u.password then
        ⟨200, "Login successful", some (jwtSign (JWT_SECRET cfg) u.id u.username now),
          some ⟨u.id, u.username, u.email, u.zodiacSign⟩⟩
      else ⟨401, "Invalid credentials", none, none⟩

/-- Outcome of reading req.headers.authorization: the optional header
value, or a fault raised outside the token-verification block (the case
the middleware's outer catch handles). -/
inductive HeadersResult where
  | got (authorization : Option String)
  | fault
deriving DecidableEq

/-- Outcome of the auth middleware: either control proceeds to the route
handler with the decoded identity attached, or the request is rejected
with a status code and message. -/
inductive AuthOutcome where
  | proceed (userId username : String)
  | reject (status : Nat) (message : String)
deriving DecidableEq

/-- authHeader.startsWith('Bearer '): the bearer-scheme check, written
over the character list (extensionally the same as String.startsWith
on the 7-character literal). -/
def bearerSchemeTest (h : String) : Bool :=
  h.toList.take 7 == "Bearer ".toList

/-- authHeader.split(' ')[1]: the credential part of a bearer header. -/
def bearerOf (h : String) : String := (h.splitOn " ").getD 1 ""

/-- The auth middleware (src/unnamed/part_000 lines 151-180): reject 401
when the header is absent or does not start with the bearer scheme;
otherwise verify the extracted token with the raw env secret, rejecting
401 Invalid token when jwt.verify throws anything (the inner catch), and
proceed on success. A fault outside the verification block is answered
by the outer catch with 500. -/
def auth (cfg : Config) (now : Int) (decode : String → Option Token)
    (headers : HeadersResult) : AuthOutcome :=
  match headers with
  | .fault => .reject 500 "Server error"
  | .got none => .reject 401 "Authorization token required"
  | .got (some h) =>
    if bearerSchemeTest h then
      match jwtVerifyStr (verifySecretOfEnv cfg) now decode (bearerOf h) with
      | .ok uid un => .proceed uid un
      | .err _ => .reject 401 "Invalid token"
    else .reject 401 "Authorization token required"

/-- Character class of the email regex: every char except whitespace and
the at-sign (the JS class is backslash-s; ASCII whitespace suffices for
the inputs the claims exercise). -/
def emailClassOk (c : Char) : Bool := !c.isWhitespace && c != '@'

/-- The email gate of the create route (src/unnamed/part_000 line 20):
the anchored regex requiring a nonempty class-run, an at-sign, a
nonempty class-run, a literal dot, and a nonempty class-run. The string
matches iff it has no whitespace, exactly one at-sign that is not first,
and a dot strictly inside the part after the at-sign. -/
def emailRegexTest (s : String) : Bool :=
  let cs := s.toList
  let l := cs.takeWhile (fun c => c != '@')
  match cs.dropWhile (fun c => c != '@') with
  | [] => false
  | _ :: r =>
    !l.isEmpty && l.all emailClassOk && r.all emailClassOk &&
      ((r.drop 1).dropLast.contains '.')

/-- The phone gate of the create route (src/unnamed/part_000 line 27):
the anchored regex requiring exactly ten decimal digits. -/
def phoneRegexTest (s : String) : Bool :=
  s.length == 10 && s.toList.all (fun c => c.isDigit)

/-- Stored appointment record (models/Appointment.js is absent from src;
fields reconstructed from the create route, with the generated id and
the creation timestamp modelled from the spec, which lists a creation
timestamp and a generated identifier on the stored record). -/
structure Appointment where
  id : String
  name : String
  email : String
  phone : String
  date : String
  time : String
  astrologer : String
  consultationType : String
  status : String
  userId : String
  createdAt : Int
deriving DecidableEq

/-- Body of a create request: the seven validated fields, plus any
status and userId the client may also have put in the body (the route
spreads the whole body into the record before overriding them). Absent
fields are the empty string. -/
structure CreateReq where
  name : String
  email : String
  phone : String
  date : String
  time : String
  astrologer : String
  consultationType : String
  bodyStatus : Option String
  bodyUserId : Option String
deriving DecidableEq

/-- The four validation failure kinds of the create route. -/
inductive CreateError where
  | missingField
  | invalidEmail
  | invalidPhone
  | pastDate
deriving DecidableEq

/-- Result of the create route: one of the four 400 errors, or the 201
with the stored record. -/
inductive CreateResult where
  | err (e : CreateError)
  | created (a : Appointment)
deriving DecidableEq

/-- The date gate condition (src/unnamed/part_000 lines 34-37):
new Date(date) compared against today normalized to midnight.
`parseDate` abstracts JS Date parsing to a millisecond timestamp;
`none` models an Invalid Date (NaN), whose comparison is false, so the
gate passes. `todayStart` is the value of today after setHours(0,0,0,0). -/
def datePast (parseDate : String → Option Int) (todayStart : Int) (d : String) : Bool :=
  match parseDate d with
  | some ts => decide (ts < todayStart)
  | none => false

/-- POST / on the appointment router (src/unnamed/part_000 lines 8-67):
presence of the seven fields, email regex, phone regex, date gate, then
construct the record with the body spread overridden by
userId = req.user.userId and status = pending, and save it (one append).
`newId` and `now` are the identifier and creation timestamp the store
assigns. -/
def createAppointment (parseDate : String → Option Int) (todayStart now : Int)
    (ownerId newId : String) (req : CreateReq) (db : List Appointment) :
    CreateResult × List Appointment :=
  if req.name == "" || req.email == "" || req.phone == "" || req.date == "" ||
      req.time == "" || req.astrologer == "" || req.consultationType == "" then
    (.err .missingField, db)
  else if !emailRegexTest req.email then
    (.err .invalidEmail, db)
  else if !phoneRegexTest req.phone then
    (.err .invalidPhone, db)
  else if datePast parseDate todayStart req.date then
    (.err .pastDate, db)
  else
    let a : Appointment :=
      ⟨newId, req.name, req.email, req.phone, req.date, req.time,
        req.astrologer, req.consultationType, "pending", ownerId, now⟩
    (.created a, db ++ [a])

/-- Presence gate formulated on its own: all seven fields truthy. -/
def presenceOk (r : CreateReq) : Bool :=
  !(r.name == "" || r.email == "" || r.phone == "" || r.date == "" ||
      r.time == "" || r.astrologer == "" || r.consultationType == "")

/-- The four gates of the create route in source order, each paired with
its independent failure condition. -/
def gateList (parseDate : String → Option Int) (todayStart : Int) (r : CreateReq) :
    List (CreateError × Bool) :=
  [(.missingField, !presenceOk r),
   (.invalidEmail, !emailRegexTest r.email),
   (.invalidPhone, !phoneRegexTest r.phone),
   (.pastDate, datePast parseDate todayStart r.date)]

/-- The first failing gate, by source order, if any. -/
def firstFailingGate (parseDate : String → Option Int) (todayStart : Int)
    (r : CreateReq) : Option CreateError :=
  (List.find? (fun g => g.2) (gateList parseDate todayStart r)).map (fun g => g.1)

/-- The compound filter of the ownership-scoped routes: the record
matches both the path id and the authenticated userId. -/
def apptMatch (a : Appointment) (id uid : String) : Bool :=
  a.id == id && a.userId == uid

/-- Appointment.findOneAndUpdate with filter id-and-owner, update
setting status, and option new: updates the first matching record in
place and returns the updated record, or returns none leaving the list
untouched. -/
def findOneAndUpdateStatus :
    List Appointment → String → String → String → Option Appointment × List Appointment
  | [], _, _, _ => (none, [])
  | a :: rest, id, uid, st =>
    if apptMatch a id uid then
      (some { a with status := st }, { a with status := st } :: rest)
    else
      let r := findOneAndUpdateStatus rest id uid st
      (r.1, a :: r.2)

/-- Appointment.findOneAndDelete with filter id-and-owner: removes the
first matching record and returns it, or returns none leaving the list
untouched. -/
def findOneAndDelete :
    List Appointment → String → String → Option Appointment × List Appointment
  | [], _, _ => (none, [])
  | a :: rest, id, uid =>
    if apptMatch a id uid then (some a, rest)
    else
      let r := findOneAndDelete rest id uid
      (r.1, a :: r.2)

/-- Result of the status-update route. -/
inductive PatchResult where
  | notFound
  | updated (a : Appointment)
deriving DecidableEq

/-- Result of the cancel route. -/
inductive DeleteResult where
  | notFound
  | cancelled
deriving DecidableEq

/-- PATCH /:id on the appointment router (src/unnamed/part_000 lines
92-118): findOneAndUpdate on the id-and-owner filter with the
caller-supplied status; 404 when no match, otherwise the updated
record. -/
def updateStatusRoute (db : List Appointment) (callerId id st : String) :
    PatchResult × List Appointment :=
  let r := findOneAndUpdateStatus db id callerId st
  match r.1 with
  | none => (.notFound, r.2)
  | some a => (.updated a, r.2)

/-- DELETE /:id on the appointment router (src/unnamed/part_000 lines
121-142): findOneAndDelete on the id-and-owner filter; 404 when no
match. -/
def cancelRoute (db : List Appointment) (callerId id : String) :
    DeleteResult × List Appointment :=
  let r := findOneAndDelete db id callerId
  match r.1 with
  | none => (.notFound, r.2)
  | some _ => (.cancelled, r.2)

/-- Composition router.use(auth, handler): the middleware runs first,
and only on proceed does the route handler touch the store. On reject
the response is built from the middleware's status and message and the
store is untouched. -/
def protectedCall {α : Type} (cfg : Config) (now : Int)
    (decode : String → Option Token) (headers : HeadersResult)
    (handler : String → String → List Appointment → α × List Appointment)
    (onReject : Nat → String → α) (db : List Appointment) :
    α × List Appointment :=
  match auth cfg now decode headers with
  | .proceed uid un => handler uid un db
  | .reject s m => (onReject s m, db)

/-! Helper lemmas about the ownership-scoped store operations. -/

theorem apptMatch_eq_true {b : Appointment} {id uid : String}
    (h1 : b.id = id) (h2 : b.userId = uid) : apptMatch b id uid = true := by
  simp [apptMatch, h1, h2]

theorem apptMatch_eq_false {b : Appointment} {id uid : String}
    (h : ¬(b.id = id ∧ b.userId = uid)) : apptMatch b id uid = false := by
  by_contra hc
  rw [Bool.not_eq_false] at hc
  exact h (by simpa [apptMatch] using hc)

theorem findOneAndUpdateStatus_none (db : List Appointment) (id uid st : String)
    (h : ∀ b ∈ db, apptMatch b id uid = false) :
    findOneAndUpdateStatus db id uid st = (none, db) := by
  induction db with
  | nil => rfl
  | cons a rest ih =>
    have ha := h a (List.mem_cons_self a rest)
    simp [findOneAndUpdateStatus, ha,
      ih (fun b hb => h b (List.mem_cons_of_mem a hb))]

theorem findOneAndUpdateStatus_split (pre post : List Appointment) (a : Appointment)
    (id uid st : String) (hpre : ∀ b ∈ pre, apptMatch b id uid = false)
    (ha : apptMatch a id uid = true) :
    findOneAndUpdateStatus (pre ++ a :: post) id uid st =
      (some { a with status := st }, pre ++ { a with status := st } :: post) := by
  induction pre with
  | nil => simp [findOneAndUpdateStatus, ha]
  | cons b rest ih =>
    have hb := hpre b (List.mem_cons_self b rest)
    simp [findOneAndUpdateStatus, hb,
      ih (fun c hc => hpre c (List.mem_cons_of_mem b hc))]

theorem findOneAndDelete_none (db : List Appointment) (id uid : String)
    (h : ∀ b ∈ db, apptMatch b id uid = false) :
    findOneAndDelete db id uid = (none, db) := by
  induction db with
  | nil => rfl
  | cons a rest ih =>
    have ha := h a (List.mem_cons_self a rest)
    simp [findOneAndDelete, ha,
      ih (fun b hb => h b (List.mem_cons_of_mem a hb))]

theorem findOneAndDelete_split (pre post : List Appointment) (a : Appointment)
    (id uid : String) (hpre : ∀ b ∈ pre, apptMatch b id uid = false)
    (ha : apptMatch a id uid = true) :
    findOneAndDelete (pre ++ a :: post) id uid = (some a, pre ++ post) := by
  induction pre with
  | nil => simp [findOneAndDelete, ha]
  | cons b rest ih =>
    have hb := hpre b (List.mem_cons_self b rest)
    simp [findOneAndDelete, hb,
      ih (fun c hc => hpre c (List.mem_cons_of_mem b hc))]

theorem exists_first_match {p : Appointment → Bool} (db : List Appointment)
    (h : ∃ a ∈ db, p a = true) :
    ∃ pre a post, db = pre ++ a :: post ∧ p a = true ∧ ∀ b ∈ pre, p b = false := by
  induction db with
  | nil =>
    rcases h with ⟨a, ha, _⟩
    exact absurd ha (List.not_mem_nil a)
  | cons c rest ih =>
    by_cases hc : p c = true
    · exact ⟨[], c, rest, rfl, hc, fun b hb => absurd hb (List.not_mem_nil b)⟩
    · have hrest : ∃ a ∈ rest, p a = true := by
        rcases h with ⟨a, ha, hpa⟩
        rcases List.mem_cons.mp ha with h1 | h2
        · exact absurd (h1 ▸ hpa) hc
        · exact ⟨a, h2, hpa⟩
      rcases ih hrest with ⟨pre, a, post, hdb, hpa, hpre⟩
      refine ⟨c :: pre, a, post, by simp [hdb], hpa, ?_⟩
      intro b hb
      rcases List.mem_cons.mp hb with h1 | h2
      · subst h1; simpa using hc
      · exact hpre b h2

/-! Claim theorems. -/

/-- Configuration in which no JWT_SECRET environment variable is set:
signing falls back to the hardcoded secret, while the middleware hands
jwt.verify the raw (absent) env value. -/
def cfgNoSecret : Config := ⟨none⟩

/-- C1 (code bug): in the fallback configuration (no JWT_SECRET set), a
token issued at signup or login is signed with the hardcoded fallback
secret, but the middleware verifies with the raw env secret, so even
well before the 24-hour expiry verification throws the no-secret error
and never yields the signed identity: the issue/verify round-trip the
claim states fails. -/
theorem token_roundtrip_nosecret_bug :
    JWT_SECRET cfgNoSecret = fallbackSecret ∧
    (jwtSign (JWT_SECRET cfgNoSecret) "u1" "alice" 0).payload.exp = tokenLifetimeMs ∧
    (1000 : Int) < tokenLifetimeMs ∧
    jwtVerifyTok (verifySecretOfEnv cfgNoSecret) 1000
      (jwtSign (JWT_SECRET cfgNoSecret) "u1" "alice" 0) = .err .noSecret ∧
    jwtVerifyTok (verifySecretOfEnv cfgNoSecret) 1000
      (jwtSign (JWT_SECRET cfgNoSecret) "u1" "alice" 0) ≠ .ok "u1" "alice" := by
  refine ⟨rfl, by decide, by decide, rfl, by decide⟩

/-- Decode stub used by the C8 counterexample: every token string
decodes to a structurally well-formed token. -/
def decodeStub : String → Option Token :=
  fun _ => some (jwtSign fallbackSecret "u1" "alice" 0)

/-- C8 counterexample: with no signing secret configured, the fault
jwt.verify raises is the no-secret configuration error, identical for
every presented token string, hence not a validity issue of the token;
yet the middleware answers 401 Invalid token, not the 500 the claim
requires for internal faults during verification. -/
theorem auth_nosecret_fault_401 :
    jwtVerifyStr (verifySecretOfEnv cfgNoSecret) 1000 decodeStub "tokA" = .err .noSecret ∧
    jwtVerifyStr (verifySecretOfEnv cfgNoSecret) 1000 decodeStub "tokB" = .err .noSecret ∧
    auth cfgNoSecret 1000 decodeStub (.got (some "Bearer tokA")) =
      .reject 401 "Invalid token" ∧
    auth cfgNoSecret 1000 decodeStub (.got (some "Bearer tokA")) ≠
      .reject 500 "Server error" := by
  refine ⟨rfl, rfl, by decide, by decide⟩

/-- C8 (amended): a missing authorization header or one not using the
bearer scheme is rejected 401 Unauthenticated; every failure raised by
the verification call itself, token-validity related or not (malformed,
bad signature, expired, missing secret), is rejected 401 Invalid token;
only a fault outside the verification block (reading the header) is
rejected 500; and every rejection leaves the store untouched with the
route handler never invoked. -/
theorem auth_error_classification (cfg : Config) (now : Int)
    (decode : String → Option Token) :
    auth cfg now decode (.got none) = .reject 401 "Authorization token required" ∧
    (∀ h, bearerSchemeTest h = false →
      auth cfg now decode (.got (some h)) = .reject 401 "Authorization token required") ∧
    (∀ h e, bearerSchemeTest h = true →
      jwtVerifyStr (verifySecretOfEnv cfg) now decode (bearerOf h) = .err e →
      auth cfg now decode (.got (some h)) = .reject 401 "Invalid token") ∧
    auth cfg now decode .fault = .reject 500 "Server error" ∧
    (∀ hdrs s m, auth cfg now decode hdrs = .reject s m →
      ∀ (db : List Appointment)
        (handler : String → String → List Appointment → PatchResult × List Appointment)
        (onReject : Nat → String → PatchResult),
        protectedCall cfg now decode hdrs handler onReject db = (onReject s m, db)) := by
  refine ⟨rfl, ?_, ?_, rfl, ?_⟩
  · intro h hb
    simp [auth, hb]
  · intro h e hb hv
    simp [auth, hb, hv]
  · intro hdrs s m hrej db handler onReject
    simp [protectedCall, hrej]

/-- Witness for the amended C8 theorem at concrete inputs: a
non-bearer header, a verification failure under the no-secret
configuration, and a rejected protected call that leaves a concrete
one-record store untouched. -/
theorem auth_error_classification_witness :
    auth cfgNoSecret 1000 decodeStub (.got (some "Token abc")) =
      .reject 401 "Authorization token required" ∧
    auth cfgNoSecret 1000 decodeStub (.got (some "Bearer abc")) =
      .reject 401 "Invalid token" ∧
    protectedCall cfgNoSecret 1000 decodeStub (.got (some "Bearer abc"))
      (fun _ _ db => (PatchResult.notFound, db)) (fun _ _ => PatchResult.notFound)
      [⟨"i1", "n", "e", "p", "d", "t", "as", "ct", "pending", "A", 0⟩] =
      (PatchResult.notFound, [⟨"i1", "n", "e", "p", "d", "t", "as", "ct", "pending", "A", 0⟩]) := by
  have h := auth_error_classification cfgNoSecret 1000 decodeStub
  have h2 := h.2.1 "Token abc" (by decide)
  have h3 := h.2.2.1 "Bearer abc" .noSecret (by decide) (by decide)
  exact ⟨h2, h3, h.2.2.2.2 (.got (some "Bearer abc")) 401 "Invalid token" h3 _ _ _⟩

/-- C10: a signup request with any of the four fields missing or empty
is answered 400 all-fields-required with the user store unchanged and
no token issued, whatever the store contains (so the duplicate check
never gets to run). -/
theorem signup_presence_gate (cfg : Config) (bhash : String → String) (now : Int)
    (newId : String) (db : List User) (req : SignupReq)
    (h : req.username = "" ∨ req.email = "" ∨ req.password = "" ∨ req.zodiacSign = "") :
    signup cfg bhash now newId db req = (⟨400, "All fields are required", none, none⟩, db) ∧
    (signup cfg bhash now newId db req).1.token = none := by
  have hcond : (req.username == "" || req.email == "" || req.password == "" ||
      req.zodiacSign == "") = true := by
    rcases h with h | h | h | h <;> simp [h]
  constructor
  · simp [signup, hcond]
  · simp [signup, hcond]

/-- Witness for the C10 theorem: an empty username with a store already
holding a user whose email collides, still answered as missing fields
with the store unchanged. -/
theorem signup_presence_gate_witness :
    signup ⟨none⟩ (fun p => String.append p "#h") 0 "id1"
        [⟨"u0", "alice", "a@b.c", "pw#h", "leo"⟩] ⟨"", "a@b.c", "pw", "aries"⟩ =
      (⟨400, "All fields are required", none, none⟩,
        [⟨"u0", "alice", "a@b.c", "pw#h", "leo"⟩]) :=
  (signup_presence_gate ⟨none⟩ (fun p => String.append p "#h") 0 "id1"
    [⟨"u0", "alice", "a@b.c", "pw#h", "leo"⟩] ⟨"", "a@b.c", "pw", "aries"⟩
    (Or.inl rfl)).1

/-- Calendar-day comparison of timestamps: a timestamp on day `d` is
before the midnight of day `D` exactly when `d` precedes `D`. -/
theorem day_lt_iff (d D t : Int) (h0 : 0 ≤ t) (h1 : t < msPerDay) :
    d * msPerDay + t < D * msPerDay ↔ d < D := by
  constructor
  · intro h
    by_contra hc
    push_neg at hc
    have hN : (0 : Int) ≤ msPerDay := by norm_num [msPerDay]
    have := mul_le_mul_of_nonneg_right hc hN
    linarith
  · intro h
    have h2 : d + 1 ≤ D := h
    have hN : (0 : Int) ≤ msPerDay := by norm_num [msPerDay]
    have h3 : (d + 1) * msPerDay ≤ D * msPerDay := mul_le_mul_of_nonneg_right h2 hN
    rw [add_mul, one_mul] at h3
    linarith

/-- C4: the create route reports exactly the error of the first failing
gate in the fixed source order (presence, email shape, phone shape, date
validity), succeeds exactly when no gate fails, and persists nothing
whenever any gate fails. -/
theorem create_gate_order (parseDate : String → Option Int) (todayStart now : Int)
    (ownerId newId : String) (req : CreateReq) (db : List Appointment) :
    (∀ e, (createAppointment parseDate todayStart now ownerId newId req db).1 = .err e ↔
      firstFailingGate parseDate todayStart req = some e) ∧
    (firstFailingGate parseDate todayStart req = none ↔
      ∃ a, (createAppointment parseDate todayStart now ownerId newId req db).1 = .created a) ∧
    (∀ e, (createAppointment parseDate todayStart now ownerId newId req db).1 = .err e →
      (createAppointment parseDate todayStart now ownerId newId req db).2 = db) := by
  cases h1 : (req.name == "" || req.email == "" || req.phone == "" || req.date == "" ||
      req.time == "" || req.astrologer == "" || req.consultationType == "") <;>
    cases h2 : emailRegexTest req.email <;>
    cases h3 : phoneRegexTest req.phone <;>
    cases h4 : datePast parseDate todayStart req.date <;>
    simp [createAppointment, firstFailingGate, gateList, presenceOk, List.find?,
      h1, h2, h3, h4]

/-- Witness for the C4 theorem: a request whose email fails the shape
gate (while presence holds) is reported as the invalid-email error and
persists nothing into a concrete empty store. -/
theorem create_gate_order_witness :
    (createAppointment (fun _ => some 5) 0 7 "owner" "id1"
      ⟨"n", "not-an-email", "1234567890", "d", "t", "astro", "video", none, none⟩ []).1 =
      .err .invalidEmail ∧
    (createAppointment (fun _ => some 5) 0 7 "owner" "id1"
      ⟨"n", "not-an-email", "1234567890", "d", "t", "astro", "video", none, none⟩ []).2 =
      [] := by
  have h := create_gate_order (fun _ => some 5) 0 7 "owner" "id1"
    ⟨"n", "not-an-email", "1234567890", "d", "t", "astro", "video", none, none⟩ []
  have he : (createAppointment (fun _ => some 5) 0 7 "owner" "id1"
      ⟨"n", "not-an-email", "1234567890", "d", "t", "astro", "video", none, none⟩ []).1 =
      .err .invalidEmail := (h.1 .invalidEmail).mpr (by decide)
  exact ⟨he, h.2.2 .invalidEmail he⟩

/-- C2: with the other three gates passing, the requested date parsing
to a timestamp on calendar day `dayIdx`, and today normalized to the
midnight of day `todayIdx`, the create route fails with the past-date
error exactly when the requested calendar day precedes today; on a past
day nothing is persisted, and on today or any later day (any time of
day) the request succeeds. -/
theorem create_date_gate (parseDate : String → Option Int)
    (dayIdx todayIdx tOfDay now : Int) (ownerId newId : String)
    (req : CreateReq) (db : List Appointment)
    (hpres : presenceOk req = true)
    (hemail : emailRegexTest req.email = true)
    (hphone : phoneRegexTest req.phone = true)
    (hparse : parseDate req.date = some (dayIdx * msPerDay + tOfDay))
    (ht0 : 0 ≤ tOfDay) (ht1 : tOfDay < msPerDay) :
    ((createAppointment parseDate (todayIdx * msPerDay) now ownerId newId req db).1 =
      .err .pastDate ↔ dayIdx < todayIdx) ∧
    (dayIdx < todayIdx →
      (createAppointment parseDate (todayIdx * msPerDay) now ownerId newId req db).2 = db) ∧
    (todayIdx ≤ dayIdx →
      ∃ a, createAppointment parseDate (todayIdx * msPerDay) now ownerId newId req db =
        (.created a, db ++ [a])) := by
  have hcond : (req.name == "" || req.email == "" || req.phone == "" || req.date == "" ||
      req.time == "" || req.astrologer == "" || req.consultationType == "") = false := by
    simpa [presenceOk] using hpres
  have harith := day_lt_iff dayIdx todayIdx tOfDay ht0 ht1
  by_cases hlt : dayIdx < todayIdx
  · have hts : dayIdx * msPerDay + tOfDay < todayIdx * msPerDay := harith.mpr hlt
    refine ⟨?_, fun _ => ?_, fun hle => absurd hlt (not_lt.mpr hle)⟩
    · simp [createAppointment, hcond, hemail, hphone, datePast, hparse, hts, hlt]
    · simp [createAppointment, hcond, hemail, hphone, datePast, hparse, hts]
  · have hts : ¬(dayIdx * msPerDay + tOfDay < todayIdx * msPerDay) :=
      fun h => hlt (harith.mp h)
    refine ⟨?_, fun h => absurd h hlt, fun _ => ?_⟩
    · constructor
      · intro h
        exfalso
        simp [createAppointment, hcond, hemail, hphone, datePast, hparse, hts] at h
      · intro h
        exact absurd h hlt
    · refine ⟨⟨newId, req.name, req.email, req.phone, req.date, req.time,
        req.astrologer, req.consultationType, "pending", ownerId, now⟩, ?_⟩
      simp [createAppointment, hcond, hemail, hphone, datePast, hparse, hts]

/-- Witness for the C2 theorem: with today being day 6, a request dated
on day 5 (yesterday, at 3ms past its midnight) fails as past-date with
nothing persisted, and the same request dated on day 6 (today, same
time of day) succeeds. -/
theorem create_date_gate_witness :
    (createAppointment (fun _ => some (5 * msPerDay + 3)) (6 * msPerDay) 0 "o" "i"
      ⟨"n", "a@b.c", "1234567890", "d", "t", "astro", "video", none, none⟩ []).1 =
      .err .pastDate ∧
    (createAppointment (fun _ => some (5 * msPerDay + 3)) (6 * msPerDay) 0 "o" "i"
      ⟨"n", "a@b.c", "1234567890", "d", "t", "astro", "video", none, none⟩ []).2 = [] ∧
    (∃ a, createAppointment (fun _ => some (6 * msPerDay + 3)) (6 * msPerDay) 0 "o" "i"
      ⟨"n", "a@b.c", "1234567890", "d", "t", "astro", "video", none, none⟩ [] =
      (.created a, [] ++ [a])) := by
  have hy := create_date_gate (fun _ => some (5 * msPerDay + 3)) 5 6 3 0 "o" "i"
    ⟨"n", "a@b.c", "1234567890", "d", "t", "astro", "video", none, none⟩ []
    (by decide) (by decide) (by decide) rfl (by decide) (by decide)
  have ht := create_date_gate (fun _ => some (6 * msPerDay + 3)) 6 6 3 0 "o" "i"
    ⟨"n", "a@b.c", "1234567890", "d", "t", "astro", "video", none, none⟩ []
    (by decide) (by decide) (by decide) rfl (by decide) (by decide)
  exact ⟨hy.1.mpr (by decide), hy.2.1 (by decide), ht.2.2 (by decide)⟩

/-- C9: when all four gates pass, exactly one record is persisted by a
single append, with status pending and userId the authenticated owner,
irrespective of any status or userId supplied in the request body, and
the stored record with its generated identifier and creation timestamp
is returned. -/
theorem create_success (parseDate : String → Option Int) (todayStart now : Int)
    (ownerId newId : String) (req : CreateReq) (db : List Appointment)
    (hpres : presenceOk req = true)
    (hemail : emailRegexTest req.email = true)
    (hphone : phoneRegexTest req.phone = true)
    (hdate : datePast parseDate todayStart req.date = false) :
    ∃ a, createAppointment parseDate todayStart now ownerId newId req db =
        (.created a, db ++ [a]) ∧
      a.status = "pending" ∧ a.userId = ownerId ∧ a.id = newId ∧ a.createdAt = now ∧
      a.name = req.name ∧ a.email = req.email ∧ a.phone = req.phone ∧ a.date = req.date ∧
      a.time = req.time ∧ a.astrologer = req.astrologer ∧
      a.consultationType = req.consultationType ∧
      (∀ bs bu, createAppointment parseDate todayStart now ownerId newId
        { req with bodyStatus := bs, bodyUserId := bu } db = (.created a, db ++ [a])) ∧
      (db ++ [a]).length = db.length + 1 := by
  have hcond : (req.name == "" || req.email == "" || req.phone == "" || req.date == "" ||
      req.time == "" || req.astrologer == "" || req.consultationType == "") = false := by
    simpa [presenceOk] using hpres
  refine ⟨⟨newId, req.name, req.email, req.phone, req.date, req.time, req.astrologer,
    req.consultationType, "pending", ownerId, now⟩, ?_, rfl, rfl, rfl, rfl, rfl, rfl,
    rfl, rfl, rfl, rfl, rfl, ?_, by simp⟩
  · simp [createAppointment, hcond, hemail, hphone, hdate]
  · intro bs bu
    simp [createAppointment, hcond, hemail, hphone, hdate]

/-- Witness for the C9 theorem: a concrete valid request, carrying a
caller-supplied status and userId in the body, stores one record owned
by the authenticated owner with status pending. -/
theorem create_success_witness :
    ∃ a, createAppointment (fun _ => some (6 * msPerDay)) (6 * msPerDay) 9 "ownerA" "apt1"
        ⟨"n", "a@b.c", "1234567890", "d", "t", "astro", "video",
          some "confirmed", some "ownerB"⟩ [] = (.created a, [] ++ [a]) ∧
      a.status = "pending" ∧ a.userId = "ownerA" := by
  have h := create_success (fun _ => some (6 * msPerDay)) (6 * msPerDay) 9 "ownerA" "apt1"
    ⟨"n", "a@b.c", "1234567890", "d", "t", "astro", "video",
      some "confirmed", some "ownerB"⟩ []
    (by decide) (by decide) (by decide) (by decide)
  rcases h with ⟨a, h1, h2, h3, _⟩
  exact ⟨a, h1, h2, h3⟩

/-- C5: for every owner, id and caller-supplied status string, the
status-update route answers not-found with the store untouched when no
record matches both the id and the owner; and when the first match is
some record, it overwrites exactly that record's status with the
supplied value, leaves each of its other fields and every other record
unchanged, and returns the updated record. -/
theorem updateStatus_contract (db : List Appointment) (callerId id st : String) :
    ((∀ b ∈ db, ¬(b.id = id ∧ b.userId = callerId)) →
      updateStatusRoute db callerId id st = (.notFound, db)) ∧
    (∀ pre a post, db = pre ++ a :: post →
      (∀ b ∈ pre, ¬(b.id = id ∧ b.userId = callerId)) →
      a.id = id → a.userId = callerId →
      updateStatusRoute db callerId id st =
        (.updated { a with status := st }, pre ++ { a with status := st } :: post) ∧
      ({ a with status := st }).status = st ∧
      ({ a with status := st }).id = a.id ∧
      ({ a with status := st }).name = a.name ∧
      ({ a with status := st }).email = a.email ∧
      ({ a with status := st }).phone = a.phone ∧
      ({ a with status := st }).date = a.date ∧
      ({ a with status := st }).time = a.time ∧
      ({ a with status := st }).astrologer = a.astrologer ∧
      ({ a with status := st }).consultationType = a.consultationType ∧
      ({ a with status := st }).userId = a.userId ∧
      ({ a with status := st }).createdAt = a.createdAt) := by
  constructor
  · intro h
    have h' : ∀ b ∈ db, apptMatch b id callerId = false :=
      fun b hb => apptMatch_eq_false (h b hb)
    simp [updateStatusRoute, findOneAndUpdateStatus_none db id callerId st h']
  · intro pre a post hdb hpre ha1 ha2
    subst hdb
    have hsplit := findOneAndUpdateStatus_split pre post a id callerId st
      (fun b hb => apptMatch_eq_false (hpre b hb)) (apptMatch_eq_true ha1 ha2)
    exact ⟨by simp [updateStatusRoute, hsplit], rfl, rfl, rfl, rfl, rfl, rfl, rfl,
      rfl, rfl, rfl, rfl⟩

/-- Witness for the C5 theorem: in a concrete two-record store, an
unmatched owner gets not-found with the store untouched, and the owner
of the second record gets it back with only the status overwritten. -/
theorem updateStatus_contract_witness :
    updateStatusRoute [⟨"i1", "n1", "e1", "p1", "d1", "t1", "as1", "ct1", "pending", "A", 0⟩,
        ⟨"i2", "n2", "e2", "p2", "d2", "t2", "as2", "ct2", "pending", "B", 1⟩]
      "C" "i2" "done" =
      (.notFound, [⟨"i1", "n1", "e1", "p1", "d1", "t1", "as1", "ct1", "pending", "A", 0⟩,
        ⟨"i2", "n2", "e2", "p2", "d2", "t2", "as2", "ct2", "pending", "B", 1⟩]) ∧
    updateStatusRoute [⟨"i1", "n1", "e1", "p1", "d1", "t1", "as1", "ct1", "pending", "A", 0⟩,
        ⟨"i2", "n2", "e2", "p2", "d2", "t2", "as2", "ct2", "pending", "B", 1⟩]
      "B" "i2" "done" =
      (.updated ⟨"i2", "n2", "e2", "p2", "d2", "t2", "as2", "ct2", "done", "B", 1⟩,
        [⟨"i1", "n1", "e1", "p1", "d1", "t1", "as1", "ct1", "pending", "A", 0⟩,
          ⟨"i2", "n2", "e2", "p2", "d2", "t2", "as2", "ct2", "done", "B", 1⟩]) := by
  have h1 := (updateStatus_contract [⟨"i1", "n1", "e1", "p1", "d1", "t1", "as1", "ct1",
    "pending", "A", 0⟩, ⟨"i2", "n2", "e2", "p2", "d2", "t2", "as2", "ct2", "pending", "B", 1⟩]
    "C" "i2" "done").1 (by decide)
  have h2 := (updateStatus_contract [⟨"i1", "n1", "e1", "p1", "d1", "t1", "as1", "ct1",
    "pending", "A", 0⟩, ⟨"i2", "n2", "e2", "p2", "d2", "t2", "as2", "ct2", "pending", "B", 1⟩]
    "B" "i2" "done").2
    [⟨"i1", "n1", "e1", "p1", "d1", "t1", "as1", "ct1", "pending", "A", 0⟩]
    ⟨"i2", "n2", "e2", "p2", "d2", "t2", "as2", "ct2", "pending", "B", 1⟩ []
    rfl (by decide) rfl rfl
  exact ⟨h1, h2.1⟩

/-- C3: for distinct users A and B and an appointment of A whose id is
unique in the store, B's status update and B's cancel on that id both
answer not-found with the store untouched, exactly as for a nonexistent
id, while A's status update and A's cancel on the same id succeed. -/
theorem ownership_scoped_mutation (db : List Appointment) (a : Appointment)
    (userA userB st : String) (ha : a ∈ db) (hown : a.userId = userA)
    (huniq : ∀ b ∈ db, b.id = a.id → b = a) (hne : userA ≠ userB) :
    updateStatusRoute db userB a.id st = (.notFound, db) ∧
    cancelRoute db userB a.id = (.notFound, db) ∧
    (∃ a', (updateStatusRoute db userA a.id st).1 = .updated a' ∧
      a'.status = st ∧ a'.id = a.id ∧ a'.userId = userA) ∧
    (cancelRoute db userA a.id).1 = .cancelled := by
  have hB : ∀ b ∈ db, apptMatch b a.id userB = false := by
    intro b hb
    apply apptMatch_eq_false
    rintro ⟨h1, h2⟩
    have hba : b = a := huniq b hb h1
    exact hne (by rw [← hown, ← h2, hba])
  have hAex : ∃ b ∈ db, apptMatch b a.id userA = true :=
    ⟨a, ha, apptMatch_eq_true rfl hown⟩
  obtain ⟨pre, b, post, hdb, hpb, hpre⟩ := exists_first_match db hAex
  have hbid : b.id = a.id ∧ b.userId = userA := by simpa [apptMatch] using hpb
  subst hdb
  have hupd := findOneAndUpdateStatus_split pre post b a.id userA st hpre hpb
  have hdel := findOneAndDelete_split pre post b a.id userA hpre hpb
  refine ⟨?_, ?_, ?_, ?_⟩
  · simp [updateStatusRoute,
      findOneAndUpdateStatus_none (pre ++ b :: post) a.id userB st hB]
  · simp [cancelRoute, findOneAndDelete_none (pre ++ b :: post) a.id userB hB]
  · exact ⟨{ b with status := st }, by simp [updateStatusRoute, hupd], rfl,
      hbid.1, hbid.2⟩
  · simp [cancelRoute, hdel]

/-- Witness for the C3 theorem: a concrete store holding one
appointment of user A, attacked by user B and then acted on by A. -/
theorem ownership_scoped_mutation_witness :
    updateStatusRoute [⟨"i1", "n", "e", "p", "d", "t", "as", "ct", "pending", "A", 0⟩]
      "B" "i1" "done" =
      (.notFound, [⟨"i1", "n", "e", "p", "d", "t", "as", "ct", "pending", "A", 0⟩]) ∧
    cancelRoute [⟨"i1", "n", "e", "p", "d", "t", "as", "ct", "pending", "A", 0⟩]
      "B" "i1" =
      (.notFound, [⟨"i1", "n", "e", "p", "d", "t", "as", "ct", "pending", "A", 0⟩]) ∧
    (∃ a', (updateStatusRoute [⟨"i1", "n", "e", "p", "d", "t", "as", "ct", "pending", "A", 0⟩]
      "A" "i1" "done").1 = .updated a' ∧ a'.status = "done" ∧ a'.id = "i1" ∧
      a'.userId = "A") ∧
    (cancelRoute [⟨"i1", "n", "e", "p", "d", "t", "as", "ct", "pending", "A", 0⟩]
      "A" "i1").1 = .cancelled := by
  have h := ownership_scoped_mutation
    [⟨"i1", "n", "e", "p", "d", "t", "as", "ct", "pending", "A", 0⟩]
    ⟨"i1", "n", "e", "p", "d", "t", "as", "ct", "pending", "A", 0⟩
    "A" "B" "done" (by decide) rfl (by decide) (by decide)
  exact h

/-- C6: a signup whose username or email collides with an existing user
is answered as a conflict with the user store unchanged; a signup with
both fresh succeeds exactly once, appending one record, after which the
identical signup is a conflict that again changes nothing; and the
pairwise uniqueness of usernames and emails is preserved by a
successful signup. -/
theorem signup_uniqueness (cfg : Config) (bhash : String → String) (now now2 : Int)
    (newId newId2 : String) (db : List User) (req : SignupReq)
    (hu : req.username ≠ "") (he : req.email ≠ "") (hp : req.password ≠ "")
    (hz : req.zodiacSign ≠ "") :
    ((∃ u ∈ db, u.email = req.email ∨ u.username = req.username) →
      signup cfg bhash now newId db req = (⟨400, "User already exists", none, none⟩, db)) ∧
    ((∀ u ∈ db, u.email ≠ req.email ∧ u.username ≠ req.username) →
      ∃ nu t, signup cfg bhash now newId db req =
          (⟨201, "User created successfully", some t,
            some ⟨newId, req.username, req.email, req.zodiacSign⟩⟩, db ++ [nu]) ∧
        nu.id = newId ∧ nu.username = req.username ∧ nu.email = req.email ∧
        signup cfg bhash now2 newId2 (db ++ [nu]) req =
          (⟨400, "User already exists", none, none⟩, db ++ [nu]) ∧
        ((db.Pairwise fun u v => u.username ≠ v.username ∧ u.email ≠ v.email) →
          (db ++ [nu]).Pairwise fun u v => u.username ≠ v.username ∧ u.email ≠ v.email)) := by
  have hcond : (req.username == "" || req.email == "" || req.password == "" ||
      req.zodiacSign == "") = false := by
    simp [hu, he, hp, hz]
  constructor
  · intro hdup
    have hany : (db.any fun u => u.email == req.email || u.username == req.username) = true := by
      rcases hdup with ⟨u, hu', hcase⟩
      refine List.any_eq_true.mpr ⟨u, hu', ?_⟩
      rcases hcase with h | h <;> simp [h]
    simp [signup, hcond, hany]
  · intro hfresh
    have hany : (db.any fun u => u.email == req.email || u.username == req.username) = false := by
      rw [Bool.eq_false_iff]
      intro hc
      rcases List.any_eq_true.mp hc with ⟨u, hu', hor⟩
      rcases Bool.or_eq_true_iff.mp hor with h | h
      · exact (hfresh u hu').1 (by simpa using h)
      · exact (hfresh u hu').2 (by simpa using h)
    refine ⟨⟨newId, req.username, req.email, bhash req.password, req.zodiacSign⟩,
      jwtSign (JWT_SECRET cfg) newId req.username now, ?_, rfl, rfl, rfl, ?_, ?_⟩
    · simp [signup, hcond, hany]
    · have hany2 : ((db ++ [(⟨newId, req.username, req.email, bhash req.password,
          req.zodiacSign⟩ : User)]).any
          fun u => u.email == req.email || u.username == req.username) = true :=
        List.any_eq_true.mpr ⟨⟨newId, req.username, req.email, bhash req.password,
          req.zodiacSign⟩, by simp, by simp⟩
      simp [signup, hcond, hany2]
    · intro hpw
      rw [List.pairwise_append]
      refine ⟨hpw, List.pairwise_singleton _ _, ?_⟩
      intro u hu' v hv
      have hv' : v = ⟨newId, req.username, req.email, bhash req.password,
          req.zodiacSign⟩ := by simpa using hv
      subst hv'
      exact ⟨(hfresh u hu').2, (hfresh u hu').1⟩

/-- Witness for the C6 theorem: against a concrete store holding one
user, a signup reusing that user's email conflicts and changes nothing,
and a fresh signup succeeds, after which repeating it conflicts. -/
theorem signup_uniqueness_witness :
    signup ⟨none⟩ (fun p => String.append p "#h") 0 "u1"
        [⟨"u0", "alice", "a@b.c", "pw#h", "leo"⟩] ⟨"bob", "a@b.c", "pw", "aries"⟩ =
      (⟨400, "User already exists", none, none⟩,
        [⟨"u0", "alice", "a@b.c", "pw#h", "leo"⟩]) ∧
    (∃ nu t, signup ⟨none⟩ (fun p => String.append p "#h") 0 "u1"
        [⟨"u0", "alice", "a@b.c", "pw#h", "leo"⟩] ⟨"bob", "b@c.d", "pw", "aries"⟩ =
        (⟨201, "User created successfully", some t,
          some ⟨"u1", "bob", "b@c.d", "aries"⟩⟩,
          [⟨"u0", "alice", "a@b.c", "pw#h", "leo"⟩] ++ [nu]) ∧
      nu.id = "u1" ∧ nu.username = "bob" ∧ nu.email = "b@c.d" ∧
      signup ⟨none⟩ (fun p => String.append p "#h") 5 "u2"
          ([⟨"u0", "alice", "a@b.c", "pw#h", "leo"⟩] ++ [nu]) ⟨"bob", "b@c.d", "pw", "aries"⟩ =
        (⟨400, "User already exists", none, none⟩,
          [⟨"u0", "alice", "a@b.c", "pw#h", "leo"⟩] ++ [nu])) := by
  have hdup := (signup_uniqueness ⟨none⟩ (fun p => String.append p "#h") 0 5 "u1" "u2"
    [⟨"u0", "alice", "a@b.c", "pw#h", "leo"⟩] ⟨"bob", "a@b.c", "pw", "aries"⟩
    (by decide) (by decide) (by decide) (by decide)).1
    ⟨⟨"u0", "alice", "a@b.c", "pw#h", "leo"⟩, by decide, Or.inl rfl⟩
  have hfr := (signup_uniqueness ⟨none⟩ (fun p => String.append p "#h") 0 5 "u1" "u2"
    [⟨"u0", "alice", "a@b.c", "pw#h", "leo"⟩] ⟨"bob", "b@c.d", "pw", "aries"⟩
    (by decide) (by decide) (by decide) (by decide)).2 (by decide)
  rcases hfr with ⟨nu, t, h1, h2, h3, h4, h5, _⟩
  exact ⟨hdup, nu, t, h1, h2, h3, h4, h5⟩

/-- C7: a login with a nonempty existing username and a password whose
hash matches the stored one is answered with a token binding that
user's id and username, expiring exactly 24 hours after issuance; a
login with an unknown username and a login with a wrong password are
both answered 401 invalid-credentials, and the two responses are
identical. -/
theorem login_contract (cfg : Config) (bhash : String → String) (now : Int)
    (db : List User) :
    (∀ u username password, username ≠ "" → password ≠ "" →
      db.find? (fun v => v.username == username) = some u →
      bhash password = u.password →
      login cfg bhash now db username password =
        ⟨200, "Login successful", some (jwtSign (JWT_SECRET cfg) u.id u.username now),
          some ⟨u.id, u.username, u.email, u.zodiacSign⟩⟩ ∧
      (jwtSign (JWT_SECRET cfg) u.id u.username now).payload.userId = u.id ∧
      (jwtSign (JWT_SECRET cfg) u.id u.username now).payload.username = u.username ∧
      (jwtSign (JWT_SECRET cfg) u.id u.username now).payload.exp = now + tokenLifetimeMs) ∧
    (∀ username password, username ≠ "" → password ≠ "" →
      db.find? (fun v => v.username == username) = none →
      login cfg bhash now db username password = ⟨401, "Invalid credentials", none, none⟩) ∧
    (∀ u username password, username ≠ "" → password ≠ "" →
      db.find? (fun v => v.username == username) = some u →
      bhash password ≠ u.password →
      login cfg bhash now db username password = ⟨401, "Invalid credentials", none, none⟩) ∧
    (∀ username1 password1 u2 username2 password2,
      username1 ≠ "" → password1 ≠ "" → username2 ≠ "" → password2 ≠ "" →
      db.find? (fun v => v.username == username1) = none →
      db.find? (fun v => v.username == username2) = some u2 →
      bhash password2 ≠ u2.password →
      login cfg bhash now db username1 password1 =
        login cfg bhash now db username2 password2) := by
  have hok : ∀ u username password, username ≠ "" → password ≠ "" →
      db.find? (fun v => v.username == username) = some u →
      bhash password = u.password →
      login cfg bhash now db username password =
        ⟨200, "Login successful", some (jwtSign (JWT_SECRET cfg) u.id u.username now),
          some ⟨u.id, u.username, u.email, u.zodiacSign⟩⟩ := by
    intro u username password hu hp hf hpw
    simp [login, hu, hp, hf, hpw]
  have hunknown : ∀ username password, username ≠ "" → password ≠ "" →
      db.find? (fun v => v.username == username) = none →
      login cfg bhash now db username password = ⟨401, "Invalid credentials", none, none⟩ := by
    intro username password hu hp hf
    simp [login, hu, hp, hf]
  have hwrong : ∀ u username password, username ≠ "" → password ≠ "" →
      db.find? (fun v => v.username == username) = some u →
      bhash password ≠ u.password →
      login cfg bhash now db username password = ⟨401, "Invalid credentials", none, none⟩ := by
    intro u username password hu hp hf hpw
    simp [login, hu, hp, hf, hpw]
  refine ⟨fun u username password hu hp hf hpw =>
    ⟨hok u username password hu hp hf hpw, rfl, rfl, rfl⟩, hunknown, hwrong, ?_⟩
  intro username1 password1 u2 username2 password2 h1 h2 h3 h4 hf1 hf2 hpw
  rw [hunknown username1 password1 h1 h2 hf1, hwrong u2 username2 password2 h3 h4 hf2 hpw]

/-- Witness for the C7 theorem over a concrete one-user store: a correct
login yields the signed token with the 24-hour expiry, and the
unknown-username and wrong-password responses are the same value. -/
theorem login_contract_witness :
    login ⟨none⟩ (fun p => String.append p "#h") 3
        [⟨"u0", "alice", "a@b.c", "pw#h", "leo"⟩] "alice" "pw" =
      ⟨200, "Login successful",
        some (jwtSign (JWT_SECRET ⟨none⟩) "u0" "alice" 3),
        some ⟨"u0", "alice", "a@b.c", "leo"⟩⟩ ∧
    (jwtSign (JWT_SECRET ⟨none⟩) "u0" "alice" 3).payload.exp = 3 + tokenLifetimeMs ∧
    login ⟨none⟩ (fun p => String.append p "#h") 3
        [⟨"u0", "alice", "a@b.c", "pw#h", "leo"⟩] "mallory" "pw" =
      login ⟨none⟩ (fun p => String.append p "#h") 3
        [⟨"u0", "alice", "a@b.c", "pw#h", "leo"⟩] "alice" "wrong" := by
  have h := login_contract ⟨none⟩ (fun p => String.append p "#h") 3
    [⟨"u0", "alice", "a@b.c", "pw#h", "leo"⟩]
  have hsucc := h.1 ⟨"u0", "alice", "a@b.c", "pw#h", "leo"⟩ "alice" "pw"
    (by decide) (by decide) (by decide) (by decide)
  have hind := h.2.2.2 "mallory" "pw" ⟨"u0", "alice", "a@b.c", "pw#h", "leo"⟩
    "alice" "wrong" (by decide) (by decide) (by decide) (by decide)
    (by decide) (by decide) (by decide)
  exact ⟨hsucc.1, hsucc.2.2.2, hind⟩

end AstroBackend
